import Mathlib

/-!
Verification development for the `s3tar` bucket-archiving script.

The Python source (`s3tar.py`) is shallowly embedded below.  Buckets are
lists of objects, byte buffers are `List Nat`, the thread-safe FIFO handed
from the producer pool to the single container writer is a `List QItem`
given in dequeue order, and the tar container produced by the `tarfile`
library is modelled as the ordered list of (header, payload) records that
`tarfile.addfile` serializes (the external `tarfile`/`smart_open`/`boto3`
libraries are treated as correct collaborators).  Python exceptions are
modelled with `Except PyExc`; Python dynamic-typing failures (such as
comparing a function object with an int) are modelled by an explicit
value universe `PyVal` with the fallible comparison `pyGT`.
-/

namespace S3Tar

/-! ## Python-level values and exceptions -/

/-- Python exceptions that the script raises or catches. -/
inductive PyExc
  | typeError (msg : String)
  | nameError (msg : String)
  | systemExit (code : Int)
  | clientError (msg : String)
deriving DecidableEq

/-- The fragment of the Python value universe needed to give semantics to
the expression `threading.active_count > 2` in `archive_bucket`: the name
`threading.active_count` denotes the function object itself (it is not
called), and Python 3 refuses to order a function against an int. -/
inductive PyVal
  | int (n : Int)
  | func (name : String)
deriving DecidableEq

/-- Python 3 semantics of `a > b` on the modelled values: defined on two
ints, a `TypeError` otherwise. -/
def pyGT : PyVal → PyVal → Except PyExc Bool
  | .int a, .int b => .ok (decide (a > b))
  | _, _ => .error (.typeError "unsupported operand types for >")

/-! ## Data model -/

/-- An object in the source bucket, as seen by the Lister and the
producers: key, listed size, payload bytes, modification time and owner
display name (`s3tar.py`: fields used by `create_tarinfo` and
`copy_s3_object`). -/
structure S3Object where
  key : String
  size : Nat
  content : List Nat
  lastModified : Nat
  ownerDisplayName : String
deriving DecidableEq

/-- `tarfile.TarInfo` as populated by `create_tarinfo`. -/
structure TarInfo where
  name : String
  size : Nat
  mtime : Nat
  uname : String
deriving DecidableEq

/-- `create_tarinfo` (`s3tar.py` lines 408-430): entry name is the object
key; size, mtime and uname are copied from the listing. -/
def create_tarinfo (o : S3Object) : TarInfo :=
  { name := o.key, size := o.size, mtime := o.lastModified, uname := o.ownerDisplayName }

/-- An item on the hand-off FIFO: either a (tarinfo, content) tuple pushed
by `copy_s3_object`, or the end mark `(None, None)` that the orchestrator
intends to push after all producers finish. -/
inductive QItem
  | entry (info : TarInfo) (content : List Nat)
  | endMark
deriving DecidableEq

/-- `ARCHIVE_SIZE` (`s3tar.py` line 27). -/
def ARCHIVE_SIZE : Nat := 100000000000

/-- `COMPRESS_TAIL` (`s3tar.py` line 45). -/
def COMPRESS_TAIL : String := ".tar.gz"

/-- `UNCOMPRESS_TAIL` (`s3tar.py` line 48). -/
def UNCOMPRESS_TAIL : String := ".tar"

/-- The generated container name `'s3://%s/%s_file%d%s'`
(`s3tar.py` lines 248 and 284). -/
def tar_name (archive_name bucket_name : String) (count : Nat) (tail : String) : String :=
  "s3://" ++ archive_name ++ "/" ++ bucket_name ++ "_file" ++ toString count ++ tail

/-! ## Container Writer (`write_tars_to_s3`) -/

/-- One archive container: the output stream name and the ordered
(header, payload) records written into it by `tf.addfile`. -/
structure Container where
  name : String
  entries : List (TarInfo × List Nat)
deriving DecidableEq

/-- The writer loop state: the tar file counter, the running
`bytes_written` counter, the currently open container and the containers
already closed by rotation. -/
structure WriterState where
  tarfile_count : Nat
  bytes_written : Nat
  current : Container
  closedContainers : List Container
deriving DecidableEq

/-- Opening a fresh container stream under the generated name. -/
def openContainer (archive_name bucket_name tail : String) (count : Nat) : Container :=
  { name := tar_name archive_name bucket_name count tail, entries := [] }

/-- Writer state right after `write_tars_to_s3` opens the first container
(`s3tar.py` lines 247-255): counter 1, zero bytes written, no closed
containers. -/
def writerInit (archive_name bucket_name tail : String) : WriterState :=
  { tarfile_count := 1
    bytes_written := 0
    current := openContainer archive_name bucket_name tail 1
    closedContainers := [] }

/-- `tf.addfile(tarinfo, content)`: append one record to the open
container. -/
def addfile (c : Container) (info : TarInfo) (content : List Nat) : Container :=
  { c with entries := c.entries ++ [(info, content)] }

/-- One iteration of the writer loop on a dequeued PayloadEntry
(`s3tar.py` lines 279-289): if `bytes_written > size` the current
container is closed and a new one with an incremented suffix is opened
with the counter reset to 0; then the entry is added and the payload
byte length is added to the counter. -/
def writerStep (archive_name bucket_name tail : String) (size : Nat)
    (st : WriterState) (info : TarInfo) (content : List Nat) : WriterState :=
  if st.bytes_written > size then
    { tarfile_count := st.tarfile_count + 1
      bytes_written := 0 + content.length
      current := addfile (openContainer archive_name bucket_name tail (st.tarfile_count + 1)) info content
      closedContainers := st.closedContainers ++ [st.current] }
  else
    { st with
      bytes_written := st.bytes_written + content.length
      current := addfile st.current info content }

/-- Outcome of a run of the writer loop.  `finalClosed` records whether
`tf.close()` / `archive_out.close()` ran on the exit path taken (in the
source neither the end-mark `return` at line 269 nor the `sys.exit(-1)`
handlers close the stream; only the rotation branch closes a stream).
`terminated` records whether the loop ever returned at all: with no end
mark on the queue the writer polls the empty FIFO forever. -/
structure WriterResult where
  closedContainers : List Container
  finalContainer : Container
  finalClosed : Bool
  terminated : Bool
  leftoverWarning : Bool
deriving DecidableEq

/-- The writer loop over the sequence of dequeued items (`s3tar.py`
lines 256-291).  On `QItem.endMark` (the `(None, None)` tuple) it returns
immediately, warning when the FIFO is non-empty, without closing the
current stream; when the queue runs out without an end mark the loop
never terminates. -/
def writerRunAux (archive_name bucket_name tail : String) (size : Nat) :
    WriterState → List QItem → WriterResult
  | st, [] =>
    { closedContainers := st.closedContainers
      finalContainer := st.current
      finalClosed := false
      terminated := false
      leftoverWarning := false }
  | st, .endMark :: rest =>
    { closedContainers := st.closedContainers
      finalContainer := st.current
      finalClosed := false
      terminated := true
      leftoverWarning := !rest.isEmpty }
  | st, .entry info content :: rest =>
    writerRunAux archive_name bucket_name tail size
      (writerStep archive_name bucket_name tail size st info content) rest

/-- `write_tars_to_s3` (`s3tar.py` lines 235-304), as a function of the
dequeue order of the FIFO. -/
def write_tars_to_s3 (bucket_name archive_name : String) (size : Nat) (compress : Bool)
    (queue : List QItem) : WriterResult :=
  let tail := if compress then COMPRESS_TAIL else UNCOMPRESS_TAIL
  writerRunAux archive_name bucket_name tail size (writerInit archive_name bucket_name tail) queue

/-- All containers a writer run has opened: the rotated-out closed ones
followed by the final (still open) one. -/
def allContainers (r : WriterResult) : List Container :=
  r.closedContainers ++ [r.finalContainer]

/-- Total payload bytes of a record list, matching the accumulation
`bytes_written = bytes_written + content.getbuffer().nbytes`. -/
def entriesBytes : List (TarInfo × List Nat) → Nat
  | [] => 0
  | e :: rest => e.2.length + entriesBytes rest

/-- Payload byte length of the last record of a container (0 when the
container is empty). -/
def lastEntryBytes (c : Container) : Nat :=
  ((c.entries.getLast?).map (fun e => e.2.length)).getD 0

/-- Concatenated records of a list of containers, in container order. -/
def containersEntries : List Container → List (TarInfo × List Nat)
  | [] => []
  | c :: rest => c.entries ++ containersEntries rest

/-- The PayloadEntries the writer dequeues before the first end mark. -/
def payloadPrefix : List QItem → List (TarInfo × List Nat)
  | [] => []
  | .endMark :: _ => []
  | .entry info content :: rest => (info, content) :: payloadPrefix rest

/-! ## Producer retry loop (`copy_s3_object`) -/

/-- Outcome of one call of `bucket.download_fileobj`: success, or the
transient `urllib3.exceptions.ProtocolError`. -/
inductive Attempt
  | ok
  | protocolError
deriving DecidableEq

/-- Observable trace of one `copy_s3_object` call: attempts made, the
backoff sleeps performed (in order), the number of tuples appended to the
FIFO, and the Boolean value the function returns. -/
structure DownloadTrace where
  attemptsMade : Nat
  sleeps : List Nat
  enqueued : Nat
  succeeded : Bool
deriving DecidableEq

/-- The retry loop of `copy_s3_object` (`s3tar.py` lines 206-217).
`att i` is the outcome of attempt number `i` (0-based); `retry` is the
retry counter.  On `ProtocolError`: when `retry >= 5` the function
returns `False`, otherwise `retry` is incremented and the worker sleeps
`5*retry` time units before the next attempt.  Returns
(download succeeded, attempts made, sleeps performed). -/
def copyLoop (att : Nat → Attempt) (retry i : Nat) (sleeps : List Nat) :
    Bool × Nat × List Nat :=
  match att i with
  | .ok => (true, i + 1, sleeps)
  | .protocolError =>
    if h5 : retry ≥ 5 then (false, i + 1, sleeps)
    else copyLoop att (retry + 1) (i + 1) (sleeps ++ [5 * (retry + 1)])
termination_by 6 - retry
decreasing_by omega

/-- `copy_s3_object` (`s3tar.py` lines 196-232): on a successful download
it builds the tarinfo and appends exactly one (tarinfo, content) tuple to
the FIFO and returns `True`; when the retries are exhausted it returns
`False` without raising and nothing is appended. -/
def copy_s3_object (att : Nat → Attempt) : DownloadTrace :=
  let r := copyLoop att 0 0 []
  if r.1 then
    { attemptsMade := r.2.1, sleeps := r.2.2, enqueued := 1, succeeded := true }
  else
    { attemptsMade := r.2.1, sleeps := r.2.2, enqueued := 0, succeeded := false }

/-! ## Verifier (`verify_bucket`) -/

/-- An object of a bucket as the verifier sees it: its key and the
content fingerprint (`ETag`) returned by `head_object`. -/
structure BucketObj where
  key : String
  etag : String
deriving DecidableEq

/-- `head_object(Bucket=b, Key=k)['ETag']`: the fingerprint of the object
stored under `k` in `b`, or a `ClientError` (modelled as `none`) when no
such key exists.  S3 keys are unique within a bucket, so the first match
of the listing is the object. -/
def headETag (bucket : List BucketObj) (k : String) : Option String :=
  (bucket.find? (fun o => o.key == k)).map (fun o => o.etag)

/-- How a verify enumeration ends. -/
inductive VerifyOutcome
  | ok
  | mismatch (key fpOld fpNew : String)
  | headError (key : String)
deriving DecidableEq

/-- The enumeration loop of `verify_bucket` (`s3tar.py` lines 367-381)
over the objects of the first bucket, returning how it ended together
with the list of keys it examined.  For each object the fingerprint of
the same key in the second bucket is fetched (a missing key raises
`ClientError`); on the first differing fingerprint both checksums are
printed and `sys.exit(-1)` is raised, ending the enumeration. -/
def verifyLoop (new_bucket : List BucketObj) : List BucketObj → VerifyOutcome × List String
  | [] => (.ok, [])
  | o :: rest =>
    match headETag new_bucket o.key with
    | none => (.headError o.key, [o.key])
    | some fp2 =>
      if o.etag = fp2 then
        ((verifyLoop new_bucket rest).1, o.key :: (verifyLoop new_bucket rest).2)
      else
        (.mismatch o.key o.etag fp2, [o.key])

/-- The body of the `try` block of `verify_bucket` as the exception it
raises, if any: a mismatch raises `SystemExit(-1)` (after printing both
checksums), a missing destination key raises `ClientError`. -/
def verify_bucket_body (b1 b2 : List BucketObj) : Except PyExc Unit :=
  match (verifyLoop b2 b1).1 with
  | .ok => .ok ()
  | .mismatch _ _ _ => .error (.systemExit (-1))
  | .headError k => .error (.clientError k)

/-- `verify_bucket` (`s3tar.py` lines 359-389) with its handlers: the
`ClientError` handler prints and raises `sys.exit(-1)`, which propagates;
every other exception — including the `SystemExit(-1)` raised on a
fingerprint mismatch — is swallowed by the final bare `except`, which
prints a traceback and lets the function return normally. -/
def verify_bucket (b1 b2 : List BucketObj) : Except PyExc Unit :=
  match verify_bucket_body b1 b2 with
  | .ok u => .ok u
  | .error (.clientError _) => .error (.systemExit (-1))
  | .error _ => .ok ()

/-! ## Process exit semantics of `main` -/

/-- How the process ends, given the exception (if any) escaping the
operation `main` dispatched: the exit status and whether the
`Unexpected error` diagnostic was printed. -/
structure ProcessEnd where
  status : Int
  printedUnexpected : Bool
deriving DecidableEq

/-- The handlers of `main` (`s3tar.py` lines 77-87): a normal return ends
the interpreter with status 0; `SystemExit(0)` is turned into
`os._exit(0)`; any other `SystemExit` — and any other exception — is
printed as an unexpected error after which `main` returns normally, so
the interpreter still exits with status 0. -/
def run_main (body : Except PyExc Unit) : ProcessEnd :=
  match body with
  | .ok _ => { status := 0, printedUnexpected := false }
  | .error (.systemExit c) =>
    if c = 0 then { status := 0, printedUnexpected := false }
    else { status := 0, printedUnexpected := true }
  | .error _ => { status := 0, printedUnexpected := true }

/-- The command-line flags `check_args` inspects. -/
structure Args where
  create : Bool
  extractFlag : Bool
  verifyFlag : Bool
  new_bucket_name : Option String
deriving DecidableEq

/-- `check_args` (`s3tar.py` lines 90-103): an extract or verify run
without a destination bucket name prints a diagnostic and raises
`sys.exit(-1)`; every other combination falls through and returns. -/
def check_args (a : Args) : Except PyExc Unit :=
  if a.create && !(a.extractFlag || a.verifyFlag) then .ok ()
  else if a.extractFlag && !(a.create || a.verifyFlag) then
    (if a.new_bucket_name = none then .error (.systemExit (-1)) else .ok ())
  else if a.verifyFlag && !(a.create || a.extractFlag) then
    (if a.new_bucket_name = none then .error (.systemExit (-1)) else .ok ())
  else .ok ()

/-! ## Extension-driven read mode (`get_compressed_mode`) -/

/-- Python `str.rfind`: the largest index holding `c`, or `-1` when `c`
does not occur. -/
def rfindAux (c : Char) : List Char → Nat → Int → Int
  | [], _, acc => acc
  | x :: xs, i, acc => rfindAux c xs (i + 1) (if x = c then (i : Int) else acc)

/-- `p.rfind(c)` on the character list of the string. -/
def rfind (p : List Char) (c : Char) : Int :=
  rfindAux c p 0 (-1)

/-- The scan of `os.path.splitext`: is there a character other than a dot
at an index in `[fi, dot)`?  This renders the `while filenameIndex <
dotIndex` loop, which declares an extension as soon as a non-dot
character precedes the final dot within the basename. -/
def anyNonDot (p : List Char) (fi dot : Nat) : Bool :=
  ((p.drop fi).take (dot - fi)).any (fun ch => ch != '.')

/-- `os.path.splitext` with `sep='/'`, `extsep='.'` (CPython
`genericpath._splitext`): split at the last dot that lies after the last
slash, unless every character between them is a dot (a basename of
leading dots has no extension). -/
def splitext (p : List Char) : List Char × List Char :=
  let sepIndex := rfind p '/'
  let dotIndex := rfind p '.'
  if sepIndex < dotIndex then
    if anyNonDot p (sepIndex + 1).toNat dotIndex.toNat then
      (p.take dotIndex.toNat, p.drop dotIndex.toNat)
    else (p, [])
  else (p, [])

/-- `get_compressed_mode` (`s3tar.py` lines 432-442): read-mode `r|gz`
when the file extension is `.gz`, plain `r|` otherwise. -/
def get_compressed_mode (name : String) : String :=
  let file_extension := String.mk (splitext name.toList).2
  if file_extension = ".gz" then "r|gz" else "r|"

/-! ## Extractor (`extract_bucket`) -/

/-- One tar container stored in the archive bucket: its object key and
the (header, payload) records a tar reader yields from it in on-disk
order. -/
structure ArchiveFile where
  key : String
  records : List (TarInfo × List Nat)
deriving DecidableEq

/-- How an extract run ends: `earlyExit0` is the `sys.exit(0)` path
(missing archive bucket or already-existing destination bucket) that the
in-function `except SystemExit` handler turns into `os._exit(0)`;
`completed` is the normal fall-through end of the function, carrying
whether the not-found diagnostic was printed. -/
inductive ExtractOutcome
  | earlyExit0
  | completed (notFoundMsg : Bool)
deriving DecidableEq

/-- Observable result of `extract_bucket`: the outcome, whether the
destination bucket was created, the (key, payload) uploads performed in
order, and the tar read mode selected for each container opened. -/
structure ExtractResult where
  outcome : ExtractOutcome
  createdDest : Bool
  uploaded : List (String × List Nat)
  modesUsed : List (String × String)
deriving DecidableEq

/-- `extract_bucket` (`s3tar.py` lines 307-356).  The archive bucket must
exist and the destination bucket must not, else `sys.exit(0)` →
`os._exit(0)`; otherwise the destination bucket is created, the archive
bucket is enumerated filtered by the source-bucket prefix, each matching
container is opened with the mode chosen from its own key by
`get_compressed_mode`, and every record is uploaded to the destination
under the entry name; when no container matched, a not-found message is
printed and the function completes normally. -/
def extract_bucket (bucket_name new_bucket_name archive_name : String)
    (archiveExists destExists : Bool) (archiveObjects : List ArchiveFile) : ExtractResult :=
  if !archiveExists then
    { outcome := .earlyExit0, createdDest := false, uploaded := [], modesUsed := [] }
  else if destExists then
    { outcome := .earlyExit0, createdDest := false, uploaded := [], modesUsed := [] }
  else
    let matching := archiveObjects.filter (fun f => bucket_name.toList.isPrefixOf f.key.toList)
    { outcome := .completed matching.isEmpty
      createdDest := true
      uploaded := (matching.map (fun f => f.records.map (fun r => (r.1.name, r.2)))).flatten
      modesUsed := matching.map (fun f => (f.key, get_compressed_mode f.key)) }

/-- Exit status of the process for an extract run: both the
`os._exit(0)` early paths and the normal completion of `extract_bucket`
(after which `main` returns) end the interpreter with status 0. -/
def extract_exit_status (r : ExtractResult) : Int :=
  match r.outcome with
  | .earlyExit0 => 0
  | .completed _ => 0

/-! ## Archive orchestrator (`archive_bucket`) -/

/-- Observable result of an `archive_bucket` run: the writer thread
result, whether an end mark was ever appended to the FIFO, and the
exception the orchestrator hit after the listing loop (swallowed by its
bare `except`). -/
structure ArchiveRunResult where
  writer : WriterResult
  endMarkerEnqueued : Bool
  orchestratorError : Option PyExc
deriving DecidableEq

/-- `archive_bucket` (`s3tar.py` lines 134-193) as a function of the
order `arrival` in which successfully downloaded payloads reach the FIFO
(producers race, so any order may occur).  After the listing loop the
orchestrator evaluates `while threading.active_count > 2`, comparing the
function object `threading.active_count` itself (it is not called) with
the int 2: under `pyGT` this raises `TypeError`, the bare `except` of
`archive_bucket` prints it and returns, and the `(None, None)` end mark
is never appended.  (Had the comparison succeeded, the code would next
hit `lock.acquire()` — `NameError`, the lock is named `LOCK` — and
`FIFO.append(None, None)`, a two-argument call of the one-argument
`deque.append`.)  The writer therefore drains a queue holding only
PayloadEntries. -/
def archive_bucket_run (bucket_name archive_name : String) (compress : Bool)
    (arrival : List S3Object) : ArchiveRunResult :=
  let queue : List QItem := arrival.map (fun o => QItem.entry (create_tarinfo o) o.content)
  match pyGT (PyVal.func "threading.active_count") (PyVal.int 2) with
  | .error e =>
    { writer := write_tars_to_s3 bucket_name archive_name ARCHIVE_SIZE compress queue
      endMarkerEnqueued := false
      orchestratorError := some e }
  | .ok _ =>
    { writer := write_tars_to_s3 bucket_name archive_name ARCHIVE_SIZE compress queue
      endMarkerEnqueued := false
      orchestratorError := some (.nameError "lock") }

/-- The rotation-example queue of the spec: three entries of 10 units
each, followed by the end mark. -/
def exampleEntry (k : String) : TarInfo × List Nat :=
  (⟨k, 10, 0, "o"⟩, List.replicate 10 0)

/-- Dequeue order for the rotation example. -/
def exampleQueue : List QItem :=
  [QItem.entry (exampleEntry "k1").1 (exampleEntry "k1").2,
   QItem.entry (exampleEntry "k2").1 (exampleEntry "k2").2,
   QItem.entry (exampleEntry "k3").1 (exampleEntry "k3").2,
   QItem.endMark]

/-! ## Helper lemmas about the writer -/

lemma entriesBytes_append (l1 l2 : List (TarInfo × List Nat)) :
    entriesBytes (l1 ++ l2) = entriesBytes l1 + entriesBytes l2 := by
  induction l1 with
  | nil => simp [entriesBytes]
  | cons x t ih => simp [entriesBytes, ih]; omega

lemma entriesBytes_dropLast_last : ∀ l : List (TarInfo × List Nat),
    entriesBytes l
      = entriesBytes l.dropLast + ((l.getLast?.map (fun e => e.2.length)).getD 0)
  | [] => by simp [entriesBytes]
  | [x] => by simp [entriesBytes]
  | x :: y :: t => by
    have ih := entriesBytes_dropLast_last (y :: t)
    simp only [entriesBytes, List.dropLast_cons₂, List.getLast?_cons_cons] at *
    omega

lemma entriesBytes_pos_ne_nil {l : List (TarInfo × List Nat)} (h : 0 < entriesBytes l) :
    l ≠ [] := by
  intro hnil
  subst hnil
  simp [entriesBytes] at h

/-- A container whose records below the last one fit under the threshold
exceeds it by at most the final record. -/
lemma container_bound {size : Nat} (c : Container)
    (h2 : entriesBytes c.entries.dropLast ≤ size) :
    entriesBytes c.entries ≤ size + lastEntryBytes c := by
  have hdec := entriesBytes_dropLast_last c.entries
  unfold lastEntryBytes
  omega

/-- The size invariant the writer maintains: the byte counter tracks the
open container, everything before the last-admitted record fits under
the threshold, and every rotated-out container exceeded the threshold by
at most its final record. -/
lemma writer_bound_aux (archive_name bucket_name tail : String) (size : Nat) :
    ∀ (q : List QItem) (st : WriterState),
      entriesBytes st.current.entries = st.bytes_written →
      entriesBytes st.current.entries.dropLast ≤ size →
      (∀ c ∈ st.closedContainers, entriesBytes c.entries ≤ size + lastEntryBytes c) →
      ∀ c ∈ allContainers (writerRunAux archive_name bucket_name tail size st q),
        entriesBytes c.entries ≤ size + lastEntryBytes c := by
  intro q
  induction q with
  | nil =>
    intro st h1 h2 h3 c hc
    simp only [writerRunAux, allContainers, List.mem_append, List.mem_singleton] at hc
    rcases hc with hc | hc
    · exact h3 c hc
    · subst hc
      exact container_bound st.current h2
  | cons item rest ih =>
    cases item with
    | endMark =>
      intro st h1 h2 h3 c hc
      simp only [writerRunAux, allContainers, List.mem_append, List.mem_singleton] at hc
      rcases hc with hc | hc
      · exact h3 c hc
      · subst hc
        exact container_bound st.current h2
    | entry info content =>
      intro st h1 h2 h3 c hc
      simp only [writerRunAux] at hc
      by_cases hrot : st.bytes_written > size
      · refine ih _ ?_ ?_ ?_ c hc
        · simp [writerStep, hrot, addfile, openContainer, entriesBytes]
        · simp [writerStep, hrot, addfile, openContainer, entriesBytes]
        · intro c' hc'
          simp only [writerStep, if_pos hrot, List.mem_append, List.mem_singleton] at hc'
          rcases hc' with hc' | hc'
          · exact h3 c' hc'
          · subst hc'
            exact container_bound st.current h2
      · refine ih _ ?_ ?_ ?_ c hc
        · simp [writerStep, hrot, addfile, entriesBytes_append, entriesBytes, h1]
        · simp only [writerStep, if_neg hrot, addfile]
          simp only [List.dropLast_concat]
          omega
        · intro c' hc'
          simp only [writerStep, if_neg hrot] at hc'
          exact h3 c' hc'

/-- The writer never splits or drops a record: the records of all
containers it has opened, in order, are exactly the dequeued
PayloadEntries. -/
lemma writer_flat_aux (archive_name bucket_name tail : String) (size : Nat) :
    ∀ (q : List QItem) (st : WriterState),
      containersEntries (allContainers (writerRunAux archive_name bucket_name tail size st q))
        = containersEntries st.closedContainers ++ st.current.entries ++ payloadPrefix q := by
  intro q
  induction q with
  | nil =>
    intro st
    simp only [writerRunAux, allContainers, payloadPrefix]
    induction st.closedContainers with
    | nil => simp [containersEntries]
    | cons c t iht => simp [containersEntries, iht]
  | cons item rest ih =>
    cases item with
    | endMark =>
      intro st
      simp only [writerRunAux, allContainers, payloadPrefix]
      induction st.closedContainers with
      | nil => simp [containersEntries]
      | cons c t iht => simp [containersEntries, iht]
    | entry info content =>
      intro st
      simp only [writerRunAux, payloadPrefix]
      rw [ih]
      by_cases hrot : st.bytes_written > size
      · simp only [writerStep, if_pos hrot, addfile, openContainer]
        induction st.closedContainers with
        | nil => simp [containersEntries]
        | cons c t iht => simp_all [containersEntries]
      · simp only [writerStep, if_neg hrot, addfile]
        simp [List.append_assoc]

/-- No exit path of the writer loop closes the final stream. -/
lemma writerRunAux_finalClosed (archive_name bucket_name tail : String) (size : Nat) :
    ∀ (q : List QItem) (st : WriterState),
      (writerRunAux archive_name bucket_name tail size st q).finalClosed = false := by
  intro q
  induction q with
  | nil => intro st; simp [writerRunAux]
  | cons item rest ih =>
    cases item with
    | endMark => intro st; simp [writerRunAux]
    | entry info content => intro st; simp [writerRunAux, ih]

/-- Without an end mark on the queue the writer loop never returns. -/
lemma writerRunAux_terminated (archive_name bucket_name tail : String) (size : Nat) :
    ∀ (os : List S3Object) (st : WriterState),
      (writerRunAux archive_name bucket_name tail size st
        (os.map (fun o => QItem.entry (create_tarinfo o) o.content))).terminated = false := by
  intro os
  induction os with
  | nil => intro st; simp [writerRunAux]
  | cons o rest ih => intro st; simp [writerRunAux, ih]

/-! ## Claim theorems -/

/-- C2: the Container Writer compares its running byte counter to the
threshold before admitting the next entry, rotating (and resetting the
counter) exactly when the counter strictly exceeds the threshold; hence
every container holds at most the threshold plus one entry, no entry is
split across containers (the concatenation of all container records is
exactly the dequeued entry sequence), and on entries of sizes 10, 10, 10
with threshold 15 exactly two containers are produced, the first with
the first two entries (20 units), the second with the third (10 units). -/
theorem claim_C2_rotation :
    (∀ (archive_name bucket_name tail : String) (size : Nat) (st : WriterState)
        (info : TarInfo) (content : List Nat),
      (st.bytes_written ≤ size →
        (writerStep archive_name bucket_name tail size st info content).closedContainers
            = st.closedContainers
          ∧ (writerStep archive_name bucket_name tail size st info content).current.entries
            = st.current.entries ++ [(info, content)])
      ∧ (st.bytes_written > size →
        (writerStep archive_name bucket_name tail size st info content).closedContainers
            = st.closedContainers ++ [st.current]
          ∧ (writerStep archive_name bucket_name tail size st info content).current.entries
            = [(info, content)]
          ∧ (writerStep archive_name bucket_name tail size st info content).bytes_written
            = content.length))
    ∧ (∀ (bucket_name archive_name : String) (size : Nat) (compress : Bool) (queue : List QItem),
        (∀ c ∈ allContainers (write_tars_to_s3 bucket_name archive_name size compress queue),
          entriesBytes c.entries ≤ size + lastEntryBytes c)
        ∧ containersEntries
            (allContainers (write_tars_to_s3 bucket_name archive_name size compress queue))
            = payloadPrefix queue)
    ∧ write_tars_to_s3 "b" "arch" 15 false exampleQueue
        = { closedContainers := [⟨"s3://arch/b_file1.tar", [exampleEntry "k1", exampleEntry "k2"]⟩]
            finalContainer := ⟨"s3://arch/b_file2.tar", [exampleEntry "k3"]⟩
            finalClosed := false
            terminated := true
            leftoverWarning := false }
    ∧ entriesBytes [exampleEntry "k1", exampleEntry "k2"] = 20
    ∧ entriesBytes [exampleEntry "k3"] = 10 := by
  refine ⟨?_, ?_, by decide, by decide, by decide⟩
  · intro archive_name bucket_name tail size st info content
    constructor
    · intro hle
      have hnot : ¬ st.bytes_written > size := by omega
      simp [writerStep, hnot, addfile]
    · intro hgt
      simp [writerStep, hgt, addfile, openContainer]
  · intro bucket_name archive_name size compress queue
    simp only [write_tars_to_s3]
    constructor
    · refine writer_bound_aux _ _ _ size queue _ ?_ ?_ ?_
      · simp [writerInit, openContainer, entriesBytes]
      · simp [writerInit, openContainer, entriesBytes]
      · simp [writerInit]
    · have h := writer_flat_aux archive_name bucket_name
        (if compress then COMPRESS_TAIL else UNCOMPRESS_TAIL) size queue
        (writerInit archive_name bucket_name (if compress then COMPRESS_TAIL else UNCOMPRESS_TAIL))
      simpa [writerInit, openContainer, containersEntries] using h

/-- Witness for C2: the container bound and the rotation behaviour,
instantiated at the rotation example of the spec. -/
theorem claim_C2_rotation_witness :
    entriesBytes [exampleEntry "k1", exampleEntry "k2"]
        ≤ 15 + lastEntryBytes ⟨"s3://arch/b_file1.tar", [exampleEntry "k1", exampleEntry "k2"]⟩
    ∧ (writerStep "arch" "b" ".tar" 15
        { tarfile_count := 1
          bytes_written := 20
          current := ⟨"s3://arch/b_file1.tar", [exampleEntry "k1", exampleEntry "k2"]⟩
          closedContainers := [] } (exampleEntry "k3").1 (exampleEntry "k3").2).closedContainers
      = [⟨"s3://arch/b_file1.tar", [exampleEntry "k1", exampleEntry "k2"]⟩] := by
  constructor
  · exact (claim_C2_rotation.2.1 "b" "arch" 15 false exampleQueue).1
      ⟨"s3://arch/b_file1.tar", [exampleEntry "k1", exampleEntry "k2"]⟩ (by decide)
  · exact ((claim_C2_rotation.1 "arch" "b" ".tar" 15
      { tarfile_count := 1
        bytes_written := 20
        current := ⟨"s3://arch/b_file1.tar", [exampleEntry "k1", exampleEntry "k2"]⟩
        closedContainers := [] } (exampleEntry "k3").1 (exampleEntry "k3").2).2 (by decide)).1

/-- C5 (code-bug evidence): no exit path of the writer closes the final
stream.  On the normal-completion path — dequeuing the end mark — the
writer returns without `tf.close()` or `archive_out.close()`, even
though the dequeued entry was written into the still-open container; the
fatal-error paths call `sys.exit(-1)` without closing either.  Only the
rotation branch inside the loop ever closes a stream. -/
theorem claim_C5_stream_not_closed :
    (∀ (bucket_name archive_name : String) (size : Nat) (compress : Bool) (queue : List QItem),
      (write_tars_to_s3 bucket_name archive_name size compress queue).finalClosed = false)
    ∧ (write_tars_to_s3 "b" "arch" 100 false
        [QItem.entry ⟨"k1", 3, 0, "o"⟩ [1, 2, 3], QItem.endMark]).terminated = true
    ∧ (write_tars_to_s3 "b" "arch" 100 false
        [QItem.entry ⟨"k1", 3, 0, "o"⟩ [1, 2, 3], QItem.endMark]).finalContainer.entries
      = [(⟨"k1", 3, 0, "o"⟩, [1, 2, 3])] := by
  refine ⟨?_, by decide, by decide⟩
  intro bucket_name archive_name size compress queue
  simp only [write_tars_to_s3]
  exact writerRunAux_finalClosed _ _ _ size queue _

/-- C4 (code-bug evidence): for every archive run, whatever the producer
arrival order, the orchestrator raises `TypeError` evaluating
`threading.active_count > 2` (the function object is compared with an
int), so the end mark is never appended to the FIFO and the writer —
which only terminates on an end mark — never terminates. -/
theorem claim_C4_end_marker_never_enqueued :
    ∀ (bucket_name archive_name : String) (compress : Bool) (arrival : List S3Object),
      (archive_bucket_run bucket_name archive_name compress arrival).endMarkerEnqueued = false
      ∧ (archive_bucket_run bucket_name archive_name compress arrival).orchestratorError
          = some (PyExc.typeError "unsupported operand types for >")
      ∧ (archive_bucket_run bucket_name archive_name compress arrival).writer.terminated
          = false := by
  intro bucket_name archive_name compress arrival
  refine ⟨rfl, rfl, ?_⟩
  show (write_tars_to_s3 bucket_name archive_name ARCHIVE_SIZE compress
    (arrival.map (fun o => QItem.entry (create_tarinfo o) o.content))).terminated = false
  simp only [write_tars_to_s3]
  exact writerRunAux_terminated _ _ _ _ arrival _

/-- The single-object source bucket of the round-trip counter-scenario. -/
def c1Object : S3Object := ⟨"k", 3, [1, 2, 3], 0, "own"⟩

/-- C1 (code-bug evidence): the archive operation never completes, for
any producer scheduling order — the end mark is never enqueued, the
writer neither terminates nor closes its stream — and concretely for a
single-object bucket the sole copy of the payload sits in the
never-closed, never-finalized first container (no container is ever
rotated out), so extracting the resulting containers cannot restore the
source keys byte-identically. -/
theorem claim_C1_round_trip_broken :
    (∀ arrival : List S3Object,
      (archive_bucket_run "srcb" "arch" false arrival).endMarkerEnqueued = false
      ∧ (archive_bucket_run "srcb" "arch" false arrival).writer.terminated = false
      ∧ (archive_bucket_run "srcb" "arch" false arrival).writer.finalClosed = false)
    ∧ (archive_bucket_run "srcb" "arch" false [c1Object]).writer.closedContainers = []
    ∧ (archive_bucket_run "srcb" "arch" false [c1Object]).writer.finalContainer.entries
        = [(create_tarinfo c1Object, [1, 2, 3])] := by
  refine ⟨?_, by decide, by decide⟩
  intro arrival
  refine ⟨rfl, ?_, ?_⟩
  · show (write_tars_to_s3 "srcb" "arch" ARCHIVE_SIZE false
      (arrival.map (fun o => QItem.entry (create_tarinfo o) o.content))).terminated = false
    simp only [write_tars_to_s3]
    exact writerRunAux_terminated _ _ _ _ arrival _
  · show (write_tars_to_s3 "srcb" "arch" ARCHIVE_SIZE false
      (arrival.map (fun o => QItem.entry (create_tarinfo o) o.content))).finalClosed = false
    simp only [write_tars_to_s3]
    exact writerRunAux_finalClosed _ _ _ _ _ _

/-- C3: a transient protocol fault is retried at most 5 times, the k-th
retry sleeping `5*k` time units; the download result decides whether
exactly one tuple is enqueued; an object whose first 3 attempts fault
and whose 4th succeeds is enqueued exactly once; an object with 6
consecutive faults is dropped — the worker returns `False` (it does not
raise), so the pool and the run continue. -/
theorem claim_C3_retry :
    (∀ att : Nat → Attempt,
      (copy_s3_object att).sleeps.length ≤ 5
      ∧ (copy_s3_object att).sleeps
          = (List.range (copy_s3_object att).sleeps.length).map (fun k => 5 * (k + 1))
      ∧ (copy_s3_object att).enqueued
          = (if (copy_s3_object att).succeeded then 1 else 0))
    ∧ copy_s3_object (fun i => if i < 3 then Attempt.protocolError else Attempt.ok)
        = { attemptsMade := 4, sleeps := [5, 10, 15], enqueued := 1, succeeded := true }
    ∧ copy_s3_object (fun _ => Attempt.protocolError)
        = { attemptsMade := 6, sleeps := [5, 10, 15, 20, 25], enqueued := 0,
            succeeded := false } := by
  refine ⟨?_, by simp [copy_s3_object, copyLoop], by simp [copy_s3_object, copyLoop]⟩
  intro att
  cases h0 : att 0 <;> cases h1 : att 1 <;> cases h2 : att 2 <;> cases h3 : att 3 <;>
    cases h4 : att 4 <;> cases h5 : att 5 <;>
      simp [copy_s3_object, copyLoop, h0, h1, h2, h3, h4, h5] <;> decide

/-! ## Helper lemmas about the verifier -/

/-- The verify enumeration succeeds exactly when every key of the first
bucket carries the same fingerprint in the second bucket. -/
lemma verifyLoop_ok_iff (b2 : List BucketObj) : ∀ b1 : List BucketObj,
    (verifyLoop b2 b1).1 = VerifyOutcome.ok ↔ ∀ o ∈ b1, headETag b2 o.key = some o.etag := by
  intro b1
  induction b1 with
  | nil => simp [verifyLoop]
  | cons o rest ih =>
    cases hh : headETag b2 o.key with
    | none => simp [verifyLoop, hh]
    | some fp2 =>
      by_cases he : o.etag = fp2
      · subst he
        simp [verifyLoop, hh, ih]
      · simp [verifyLoop, hh, he]
        intro hc
        exact absurd hc.symm he

/-- The verifier only ever examines keys of the first bucket. -/
lemma verifyLoop_examined_sub (b2 : List BucketObj) : ∀ b1 : List BucketObj,
    ∀ k ∈ (verifyLoop b2 b1).2, k ∈ b1.map (fun o => o.key) := by
  intro b1
  induction b1 with
  | nil => simp [verifyLoop]
  | cons o rest ih =>
    intro k hk
    cases hh : headETag b2 o.key with
    | none =>
      simp [verifyLoop, hh] at hk
      simp [hk]
    | some fp2 =>
      by_cases he : o.etag = fp2
      · simp only [verifyLoop, hh, if_pos he, List.mem_cons] at hk
        rcases hk with hk | hk
        · simp [hk]
        · simpa using Or.inr (ih k hk)
      · simp [verifyLoop, hh, he] at hk
        simp [hk]

/-- Fail-fast: once the first mismatching key is reached, the outcome
and the examined keys are fixed — both fingerprints are reported and no
later key is evaluated (the result does not depend on `ys`). -/
lemma verifyLoop_failfast (b2 : List BucketObj) : ∀ (xs : List BucketObj) (o : BucketObj)
    (ys : List BucketObj) (f2 : String),
    (∀ x ∈ xs, headETag b2 x.key = some x.etag) →
    headETag b2 o.key = some f2 →
    ¬ o.etag = f2 →
    verifyLoop b2 (xs ++ o :: ys)
      = (VerifyOutcome.mismatch o.key o.etag f2, xs.map (fun x => x.key) ++ [o.key]) := by
  intro xs
  induction xs with
  | nil =>
    intro o ys f2 _ hf2 hne
    simp [verifyLoop, hf2, hne]
  | cons x t ih =>
    intro o ys f2 hxs hf2 hne
    have hx : headETag b2 x.key = some x.etag := hxs x (by simp)
    have ht : ∀ x' ∈ t, headETag b2 x'.key = some x'.etag := by
      intro x' hx'
      exact hxs x' (by simp [hx'])
    have hrec := ih o ys f2 ht hf2 hne
    simp [verifyLoop, hx, hrec]

/-- C6: verification returns success only if every key of the first
bucket has the fingerprint of the same key in the second bucket; it
never examines keys absent from the first bucket; and on the first
mismatching key it reports both fingerprints and stops — the result is
independent of every later key, and at the spec's example (source `x`
with `abc`, destination `x` with `def`) only key `x` is examined. -/
theorem claim_C6_verify :
    (∀ b1 b2 : List BucketObj,
      (verifyLoop b2 b1).1 = VerifyOutcome.ok ↔ ∀ o ∈ b1, headETag b2 o.key = some o.etag)
    ∧ (∀ b1 b2 : List BucketObj, ∀ k ∈ (verifyLoop b2 b1).2, k ∈ b1.map (fun o => o.key))
    ∧ (∀ (b2 xs : List BucketObj) (o : BucketObj) (ys : List BucketObj) (f2 : String),
        (∀ x ∈ xs, headETag b2 x.key = some x.etag) →
        headETag b2 o.key = some f2 →
        ¬ o.etag = f2 →
        verifyLoop b2 (xs ++ o :: ys)
          = (VerifyOutcome.mismatch o.key o.etag f2, xs.map (fun x => x.key) ++ [o.key])) :=
  ⟨fun b1 b2 => verifyLoop_ok_iff b2 b1,
   fun b1 b2 => verifyLoop_examined_sub b2 b1,
   fun b2 xs o ys f2 => verifyLoop_failfast b2 xs o ys f2⟩

/-- Witness for C6: the spec's fail-fast example — source key `x` with
fingerprint `abc` against destination fingerprint `def`, with a later
key `y` that is never evaluated. -/
theorem claim_C6_verify_witness :
    verifyLoop [⟨"x", "def"⟩, ⟨"y", "qqq"⟩]
        (([] : List BucketObj) ++ ⟨"x", "abc"⟩ :: [⟨"y", "qqq"⟩])
      = (VerifyOutcome.mismatch "x" "abc" "def", ["x"]) := by
  exact claim_C6_verify.2.2 [⟨"x", "def"⟩, ⟨"y", "qqq"⟩] [] ⟨"x", "abc"⟩ [⟨"y", "qqq"⟩] "def"
    (by simp) (by decide) (by decide)

/-- C7 (code-bug evidence): every verify run ends the process with exit
status 0 — in particular the run on source `x`/`abc` against
destination `x`/`def`, whose mismatch is detected and reported but whose
`SystemExit(-1)` is swallowed by the bare `except` of `verify_bucket`;
likewise the usage error of an extract invocation without a destination
bucket name ends with status 0 (its `SystemExit(-1)` reaches `main`,
which prints and returns normally). -/
theorem claim_C7_exit_status_zero :
    (∀ b1 b2 : List BucketObj, (run_main (verify_bucket b1 b2)).status = 0)
    ∧ (verifyLoop [⟨"x", "def"⟩] [⟨"x", "abc"⟩]).1 = VerifyOutcome.mismatch "x" "abc" "def"
    ∧ run_main (verify_bucket [⟨"x", "abc"⟩] [⟨"x", "def"⟩])
        = { status := 0, printedUnexpected := false }
    ∧ run_main (check_args
        { create := false, extractFlag := true, verifyFlag := false, new_bucket_name := none })
        = { status := 0, printedUnexpected := true } := by
  refine ⟨?_, by decide, by decide, by decide⟩
  intro b1 b2
  cases h : (verifyLoop b2 b1).1 <;>
    simp [verify_bucket, verify_bucket_body, run_main, h]

/-- C8 counterexample: an extract run whose enumeration matches zero
containers does not abort — it completes through the same
normal-completion outcome as a successful extract (printing the
not-found diagnostic) and the process exits with status 0. -/
theorem claim_C8_counterexample :
    (extract_bucket "mybucket" "newb" "arch" true false [⟨"other_file1.tar", []⟩]).outcome
      = ExtractOutcome.completed true
    ∧ extract_exit_status
        (extract_bucket "mybucket" "newb" "arch" true false [⟨"other_file1.tar", []⟩]) = 0 := by
  constructor
  · decide
  · decide

/-- C8 (amended): when zero containers match, the extractor prints the
not-found diagnostic and uploads nothing, but does not abort — the run
completes normally and the process exits with status 0. -/
theorem claim_C8_no_abort :
    ∀ (bucket_name new_bucket_name archive_name : String) (archiveObjects : List ArchiveFile),
      archiveObjects.filter (fun f => bucket_name.toList.isPrefixOf f.key.toList) = [] →
      (extract_bucket bucket_name new_bucket_name archive_name true false archiveObjects).outcome
          = ExtractOutcome.completed true
        ∧ (extract_bucket bucket_name new_bucket_name archive_name true false
            archiveObjects).uploaded = []
        ∧ extract_exit_status
            (extract_bucket bucket_name new_bucket_name archive_name true false
              archiveObjects) = 0 := by
  intro bucket_name new_bucket_name archive_name archiveObjects h
  have hred : extract_bucket bucket_name new_bucket_name archive_name true false archiveObjects
      = { outcome := .completed
            (archiveObjects.filter
              (fun f => bucket_name.toList.isPrefixOf f.key.toList)).isEmpty
          createdDest := true
          uploaded := ((archiveObjects.filter
              (fun f => bucket_name.toList.isPrefixOf f.key.toList)).map
              (fun f => f.records.map (fun r => (r.1.name, r.2)))).flatten
          modesUsed := (archiveObjects.filter
              (fun f => bucket_name.toList.isPrefixOf f.key.toList)).map
              (fun f => (f.key, get_compressed_mode f.key)) } := rfl
  rw [hred, h]
  exact ⟨rfl, rfl, rfl⟩

/-- Witness for C8 (amended): a concrete zero-match extract run. -/
theorem claim_C8_no_abort_witness :
    (extract_bucket "mybucket" "newdest" "arch" true false [⟨"other_file1.tar", []⟩]).outcome
      = ExtractOutcome.completed true := by
  exact (claim_C8_no_abort "mybucket" "newdest" "arch" [⟨"other_file1.tar", []⟩] (by decide)).1

/-- Constructor injectivity of `String`, stated over the character
list. -/
lemma String_mk_eq_iff (l : List Char) (s : String) : String.mk l = s ↔ l = s.data := by
  constructor
  · intro h
    exact congrArg String.data h
  · intro h
    cases s
    subst h
    rfl

/-- C9: the read mode is selected from the file-extension suffix of the
container name alone — `r|gz` exactly when the extension computed by
`splitext` is `.gz` — independently for each container of an extract
run: a `.tar.gz` container is opened with decompression, a `.tar` one
without, in the same run. -/
theorem claim_C9_mode_selection :
    (∀ name : String,
      (get_compressed_mode name = "r|gz" ↔ (splitext name.toList).2 = ".gz".toList)
      ∧ (get_compressed_mode name = "r|gz" ∨ get_compressed_mode name = "r|"))
    ∧ get_compressed_mode "X.tar.gz" = "r|gz"
    ∧ get_compressed_mode "X.tar" = "r|"
    ∧ (extract_bucket "b" "newb" "arch" true false
        [⟨"b_file1.tar.gz", [(⟨"k1", 1, 0, "o"⟩, [7])]⟩,
         ⟨"b_file2.tar", [(⟨"k2", 1, 0, "o"⟩, [9])]⟩]).modesUsed
      = [("b_file1.tar.gz", "r|gz"), ("b_file2.tar", "r|")] := by
  refine ⟨?_, by decide, by decide, by decide⟩
  intro name
  have hdef : get_compressed_mode name
      = (if String.mk (splitext name.toList).2 = ".gz" then "r|gz" else "r|") := rfl
  constructor
  · rw [hdef]
    by_cases h : String.mk (splitext name.toList).2 = ".gz"
    · rw [if_pos h]
      constructor
      · intro _
        exact (String_mk_eq_iff _ _).mp h
      · intro _
        rfl
    · rw [if_neg h]
      constructor
      · intro habs
        exact absurd habs (by decide)
      · intro hc
        exact absurd ((String_mk_eq_iff _ _).mpr hc) h
  · rw [hdef]
    by_cases h : String.mk (splitext name.toList).2 = ".gz"
    · rw [if_pos h]
      exact Or.inl rfl
    · rw [if_neg h]
      exact Or.inr rfl

/-- C10: extract requires a fresh destination bucket — when the
destination already exists the run terminates immediately through the
intentional-no-op path with exit status 0 and uploads nothing; when it
does not exist, extract itself creates it before extracting. -/
theorem claim_C10_extract_requires_fresh_dest :
    ∀ (bucket_name new_bucket_name archive_name : String)
      (archiveObjects : List ArchiveFile),
      extract_bucket bucket_name new_bucket_name archive_name true true archiveObjects
        = { outcome := .earlyExit0, createdDest := false, uploaded := [], modesUsed := [] }
      ∧ extract_exit_status
          (extract_bucket bucket_name new_bucket_name archive_name true true archiveObjects) = 0
      ∧ (extract_bucket bucket_name new_bucket_name archive_name true false
          archiveObjects).createdDest = true := by
  intro bucket_name new_bucket_name archive_name archiveObjects
  exact ⟨rfl, rfl, rfl⟩

end S3Tar
